import Mathlib

/-!
Shallow embedding of `seafile_helper/helper.py` (seafile-helper).

Paths are modelled as lists of components (absolute, as produced by
`os.getcwd()` / `os.path.join`).  The filesystem is a pair of lists of
existing directory and file paths.  Console input is a list of lines;
`input()` at end of input is the Python `EOFError` case.  `sys.exit(arg)`
follows CPython semantics: no argument exits 0, an integer exits with that
integer, any other object (e.g. a string message) is printed to stderr and
the process exits with status 1.
-/

namespace SeafileHelper

abbrev Path := List String

/-- `os.path.basename` of an absolute path held as components. -/
def basename (p : Path) : String := p.getLast?.getD ""

/-- Filesystem state: the sets of existing directories and regular files. -/
structure FS where
  dirs : List Path
  files : List Path
deriving DecidableEq

def isDir (fs : FS) (p : Path) : Bool := fs.dirs.contains p

def isFile (fs : FS) (p : Path) : Bool := fs.files.contains p

def pathExists (fs : FS) (p : Path) : Bool := isDir fs p || isFile fs p

/-- Python exceptions that the helper's filesystem calls can raise. -/
inductive PyErr where
  | fileExists
  | fileNotFound
  | notADirectory
deriving DecidableEq

/-- Argument passed to `sys.exit`. -/
inductive ExitArg where
  | noArg
  | intArg (n : Int)
  | strArg (s : String)
deriving DecidableEq

/-- CPython `sys.exit` status: `None` exits 0, an int exits with itself,
any other object (a message string) exits with status 1. -/
def sysExitCode : ExitArg → Int
  | .noArg => 0
  | .intArg n => n
  | .strArg _ => 1

/-- `Helper.check`: the three `sys.exit` guards, in source order.
`wkdir` is `self.__wkdir` (captured `os.getcwd()`), `user` is
`os.environ['USER']`.  Returns the `sys.exit` argument of the first failing
guard, or `none` when all three pass. -/
def check (wkdir : Path) (user : String) (fs : FS) : Option ExitArg :=
  if basename wkdir ≠ "seafile-server" then
    some (.strArg "You must be in /YourInstance/seafile-server/")
  else if user ≠ "seafile" then
    some (.strArg "You must use seafile user, view « sudo usage »")
  else if isFile fs (wkdir ++ ["runtime", "seahub.pid"]) then
    some (.strArg "You must stop seafile-server service")
  else
    none

/-- `Helper.confirm`: when `self.__confirm` is set it reads one line and
returns whether the reply is exactly `y` or `Y`; otherwise it returns
`True` without reading.  `none` is the `EOFError` raised by `input()` at
end of input.  The prompt message does not influence the result. -/
def confirm (confirmFlag : Bool) (_msg : String) (stdin : List String) :
    Option (Bool × List String) :=
  if confirmFlag then
    match stdin with
    | [] => none
    | reply :: rest => some (reply == "y" || reply == "Y", rest)
  else
    some (true, stdin)

/-- The characters Python `str.strip` (as applied by `int`) discards. -/
def pyWhitespace (c : Char) : Bool :=
  c == ' ' || c == '\t' || c == '\n' || c == '\r' || c == '\x0b' || c == '\x0c'

def trimChars (cs : List Char) : List Char :=
  ((cs.dropWhile pyWhitespace).reverse.dropWhile pyWhitespace).reverse

def digitsToNat : List Char → Nat → Nat
  | [], acc => acc
  | c :: cs, acc => digitsToNat cs (acc * 10 + (c.toNat - 48))

def parseDigits (cs : List Char) : Option Nat :=
  if cs ≠ [] ∧ cs.all Char.isDigit then some (digitsToNat cs 0) else none

/-- Python `int(s)` on a line of input: optional surrounding whitespace,
optional sign, decimal digits; anything else raises `ValueError`. -/
def pyParseInt (s : String) : Option Int :=
  match trimChars s.data with
  | '-' :: rest => (parseDigits rest).map (fun n => -(n : Int))
  | '+' :: rest => (parseDigits rest).map (fun n => (n : Int))
  | cs => (parseDigits cs).map (fun n => (n : Int))

inductive SelectOutcome where
  | exited (code : Int)
  | selected (item : String)
  | noSelection
deriving DecidableEq

/-- `Helper.select`: parse the reply with `int`; `ValueError` is answered
by `sys.exit(1)`; a reply in `[1, len(list_items)]` returns the item at
that 1-based position; any other number falls through and returns `None`. -/
def select (listItems : List String) (line : String) : SelectOutcome :=
  match pyParseInt line with
  | none => .exited 1
  | some reply =>
    if 0 < reply ∧ reply ≤ (listItems.length : Int) then
      .selected (listItems.getD (reply - 1).toNat "")
    else
      .noSelection

/-- Remove a path and everything below it. -/
def removeSubtree (fs : FS) (p : Path) : FS :=
  { dirs := fs.dirs.filter (fun q => ¬ p.isPrefixOf q),
    files := fs.files.filter (fun q => ¬ p.isPrefixOf q) }

def rebase (src dst q : Path) : Path :=
  if src.isPrefixOf q then dst ++ q.drop src.length else q

def renameSubtree (fs : FS) (src dst : Path) : FS :=
  { dirs := fs.dirs.map (rebase src dst),
    files := fs.files.map (rebase src dst) }

/-- `shutil.move`: missing source raises `FileNotFoundError`; a directory
destination receives the source inside itself; a colliding directory at
the real destination is an error; a regular file there is overwritten by
the underlying `os.rename`. -/
def move (fs : FS) (src dst : Path) : Except PyErr FS :=
  if pathExists fs src = false then .error .fileNotFound
  else
    let real := if isDir fs dst then dst ++ [basename src] else dst
    if isDir fs real then .error .fileExists
    else
      let fs := { fs with files := fs.files.filter (fun q => q ≠ real) }
      .ok (renameSubtree fs src real)

/-- `shutil.copytree` with default options: an existing destination raises
`FileExistsError`; a missing source directory raises; otherwise the whole
source subtree is duplicated below the destination. -/
def copytree (fs : FS) (src dst : Path) : Except PyErr FS :=
  if pathExists fs dst then .error .fileExists
  else if isDir fs src = false then .error .fileNotFound
  else
    .ok { dirs := fs.dirs ++ fs.dirs.filterMap
            (fun q => if src.isPrefixOf q then some (dst ++ q.drop src.length) else none),
          files := fs.files ++ fs.files.filterMap
            (fun q => if src.isPrefixOf q then some (dst ++ q.drop src.length) else none) }

/-- Step 1 of `Helper.prepare_upgrade` (`## Requierements`):
`os.mkdir('runtime', 0o755)` relative to the current directory, then, when
the directory was created, `shutil.copy2` of the package's
`scripts/seahub.conf` into `__wkdir/runtime/`; `FileExistsError` from the
`mkdir` is reported as `Already exist`.  The trace collects the strings
passed to `verbose`. -/
def importRuntime (pkgdir wkdir cwd : Path) (fs : FS) :
    Except PyErr (FS × List String) :=
  let tr := ["-> Import runtime content... "]
  if pathExists fs (cwd ++ ["runtime"]) then
    .ok (fs, tr ++ ["Already exist\n"])
  else
    let fs1 : FS := { fs with dirs := (cwd ++ ["runtime"]) :: fs.dirs }
    if isFile fs1 (pkgdir ++ ["scripts", "seahub.conf"]) then
      .ok ({ fs1 with files := (wkdir ++ ["runtime", "seahub.conf"]) :: fs1.files },
           tr ++ ["Done\n"])
    else
      .error .fileNotFound

/-- Step 2 of `Helper.prepare_upgrade` (`## Remove`): the loop
`for dire in ('upgrade', 'seahub-old')` running `shutil.rmtree` with only
`FileNotFoundError` caught (reported `Not exist`). -/
def removeStale (wkdir : Path) : List String → FS → List String →
    Except PyErr (FS × List String)
  | [], fs, tr => .ok (fs, tr)
  | d :: rest, fs, tr =>
    let p := wkdir ++ [d]
    let tr := tr ++ ["-> Remove " ++ d ++ "... "]
    if isDir fs p then
      removeStale wkdir rest (removeSubtree fs p) (tr ++ ["Done\n"])
    else if isFile fs p then .error .notADirectory
    else removeStale wkdir rest fs (tr ++ ["Not exist\n"])

/-- `Helper.prepare_upgrade`: requirements import, stale-state removal,
`seahub` → `seahub-old` backup (`FileNotFoundError` tolerated), then the
two unguarded `shutil.copytree` imports.  Other exceptions propagate. -/
def prepare_upgrade (pkgdir wkdir cwd : Path) (fs : FS) :
    Except PyErr (FS × List String) := do
  let (fs, tr) ← importRuntime pkgdir wkdir cwd fs
  let (fs, tr) ← removeStale wkdir ["upgrade", "seahub-old"] fs tr
  let tr := tr ++ ["-> Backup seahub to seahub-old... "]
  let (fs, tr) ←
    match move fs (wkdir ++ ["seahub"]) (wkdir ++ ["seahub-old"]) with
    | .error .fileNotFound => pure (fs, tr ++ ["Not exist\n"])
    | .error e => throw e
    | .ok fs1 => pure (fs1, tr ++ ["Done\n"])
  let tr := tr ++ ["-> Import scripts upgrade... "]
  let fs ← copytree fs (pkgdir ++ ["scripts", "upgrade"]) (wkdir ++ ["upgrade"])
  let tr := tr ++ ["Done\n", "-> Import seahub... "]
  let fs ← copytree fs (pkgdir ++ ["seahub"]) (wkdir ++ ["seahub"])
  pure (fs, tr ++ ["Done\n"])

/-- Ambient process state touched by the helper: current working directory,
remaining console input, and the commands handed to `os.system`. -/
structure ProcState where
  cwd : Path
  stdin : List String
  executed : List String
deriving DecidableEq

def childDirNames (fs : FS) (base : Path) : List String :=
  fs.dirs.filterMap fun q =>
    if q.length = base.length + 1 && base.isPrefixOf q then q.getLast? else none

def childFileNames (fs : FS) (base : Path) : List String :=
  fs.files.filterMap fun q =>
    if q.length = base.length + 1 && base.isPrefixOf q then q.getLast? else none

/-- `glob.glob('*upgrade*.sh')` membership: not a dotfile, ends in `.sh`,
and contains `upgrade` before that suffix. -/
def globUpgradeMatch (name : String) : Bool :=
  !name.startsWith "." && name.endsWith ".sh" &&
    ((name.dropRight 3).splitOn "upgrade").length > 1

def strLe (a b : String) : Bool := decide (a ≤ b)

/-- `Helper.get_locales_available`: `os.chdir` into the package's
`seahub/locale`, then the sorted subdirectory names there. -/
def get_locales_available (pkgdir : Path) (fs : FS) (st : ProcState) :
    List String × ProcState :=
  let dest := pkgdir ++ ["seahub", "locale"]
  let st1 := { st with cwd := dest }
  ((childDirNames fs dest).mergeSort strLe, st1)

/-- `Helper.get_upgrades_available`: `os.chdir` into the package's
`scripts/upgrade`, then the sorted `*upgrade*.sh` filenames there. -/
def get_upgrades_available (pkgdir : Path) (fs : FS) (st : ProcState) :
    List String × ProcState :=
  let dest := pkgdir ++ ["scripts", "upgrade"]
  let st1 := { st with cwd := dest }
  (((childFileNames fs dest).filter globUpgradeMatch).mergeSort strLe, st1)

/-- `Helper.run_upgrade`: `os.chdir` into `__wkdir/upgrade` first, then the
confirmation; only on acceptance is `./<script>` handed to `os.system`.
`none` is the `EOFError` case of the read. -/
def run_upgrade (wkdir : Path) (upgradeName : String) (confirmFlag : Bool)
    (st : ProcState) : Option ProcState :=
  let st1 := { st with cwd := wkdir ++ ["upgrade"] }
  match confirm confirmFlag ("Run \"" ++ upgradeName ++ "\" ?") st1.stdin with
  | none => none
  | some (ok, rest) =>
    if ok then
      some { st1 with stdin := rest, executed := st1.executed ++ ["./" ++ upgradeName] }
    else
      some { st1 with stdin := rest }

/-- The argparse namespace: `store_true` flags default `False`, the
`--no-*` `store_false` flags default `True`, the string options default
`None`. -/
structure Args where
  show_locales : Bool
  show_upgrades : Bool
  interactive : Bool
  prepare : Bool
  locale : Option String
  upgrade : Option String
  about : Bool
  no_verbose : Bool
  no_confirm : Bool
  no_color : Bool
deriving DecidableEq

def defaultArgs : Args :=
  { show_locales := false, show_upgrades := false, interactive := false,
    prepare := false, locale := none, upgrade := none, about := false,
    no_verbose := true, no_confirm := true, no_color := true }

inductive MainAction where
  | exits (arg : ExitArg)
  | interactiveFlow
  | aboutInfo
  | listings
  | checkedCommands
deriving DecidableEq

/-- The `if/elif/else` dispatch in `main`, keyed on `len(sys.argv)` and the
parsed flags.  `checkedCommands` is the final branch that runs `check()`
and then the `prepare`/`locale`/`upgrade` handlers. -/
def mainDispatch (argc : Nat) (scriptname : String) (a : Args) : MainAction :=
  if argc = 1 then
    .exits (.strArg ("Argument missing, view « " ++ scriptname ++ " --help »"))
  else if a.interactive then .interactiveFlow
  else if a.about then .aboutInfo
  else if a.show_locales || a.show_upgrades then .listings
  else .checkedCommands

/-- The `except KeyboardInterrupt: sys.exit('')` handler in `main`. -/
def interruptExitArg : ExitArg := .strArg ""

/-! Concrete fixtures: the package tree under `/usr/share/seafile-server`
and a fresh target instance at `/srv/seafile-server`. -/

def pkg0 : Path := ["usr", "share", "seafile-server"]

def wk0 : Path := ["srv", "seafile-server"]

def fsFresh : FS :=
  { dirs := [pkg0, pkg0 ++ ["runtime"], pkg0 ++ ["scripts"],
             pkg0 ++ ["scripts", "upgrade"], pkg0 ++ ["seahub"], wk0],
    files := [pkg0 ++ ["scripts", "seahub.conf"],
              pkg0 ++ ["scripts", "upgrade", "upgrade_1.0.sh"],
              pkg0 ++ ["seahub", "settings.py"],
              pkg0 ++ ["runtime", "extra"]] }

def runOk : Except PyErr (FS × List String) → Bool
  | .ok _ => true
  | .error _ => false

def runTrace : Except PyErr (FS × List String) → List String
  | .ok (_, tr) => tr
  | .error _ => []

def runFS : Except PyErr (FS × List String) → FS
  | .ok (fs, _) => fs
  | .error _ => ⟨[], []⟩

def firstRun : Except PyErr (FS × List String) :=
  prepare_upgrade pkg0 wk0 wk0 fsFresh

def secondRun : Except PyErr (FS × List String) :=
  prepare_upgrade pkg0 wk0 wk0 (runFS firstRun)

def freshTrace : List String :=
  ["-> Import runtime content... ", "Done\n",
   "-> Remove upgrade... ", "Not exist\n",
   "-> Remove seahub-old... ", "Not exist\n",
   "-> Backup seahub to seahub-old... ", "Not exist\n",
   "-> Import scripts upgrade... ", "Done\n",
   "-> Import seahub... ", "Done\n"]

def secondTrace : List String :=
  ["-> Import runtime content... ", "Already exist\n",
   "-> Remove upgrade... ", "Done\n",
   "-> Remove seahub-old... ", "Not exist\n",
   "-> Backup seahub to seahub-old... ", "Done\n",
   "-> Import scripts upgrade... ", "Done\n",
   "-> Import seahub... ", "Done\n"]

/-! Theorems. -/

/-- C1 (counterexample): with the working directory `/srv/seafile-server`
and an empty filesystem, no `seafile-server` directory exists under the
current working directory, yet `check` succeeds: the first guard is not an
existence test of a subdirectory. -/
theorem check_passes_without_subdir :
    isDir ⟨[], []⟩ (wk0 ++ ["seafile-server"]) = false ∧
    check wk0 "seafile" ⟨[], []⟩ = none := by
  constructor <;> rfl

/-- C1 (amended): the first condition `check` verifies is that the basename
of the captured working directory is `seafile-server`; whenever it is not,
`check` fails with the `MissingInstallation` diagnostic
(`You must be in /YourInstance/seafile-server/`), whose `sys.exit` status
is non-zero, regardless of the filesystem and the user. -/
theorem check_first_guard_basename (w : Path) (u : String) (fs : FS)
    (h : basename w ≠ "seafile-server") :
    check w u fs = some (.strArg "You must be in /YourInstance/seafile-server/") ∧
    sysExitCode (.strArg "You must be in /YourInstance/seafile-server/") ≠ 0 := by
  refine ⟨?_, by decide⟩
  unfold check
  rw [if_pos h]

/-- C1 witness: `check` at `/home/user` fails with the missing-installation
diagnostic. -/
theorem check_first_guard_basename_witness :
    check ["home", "user"] "seafile" ⟨[], []⟩ =
      some (.strArg "You must be in /YourInstance/seafile-server/") ∧
    sysExitCode (.strArg "You must be in /YourInstance/seafile-server/") ≠ 0 :=
  check_first_guard_basename ["home", "user"] "seafile" ⟨[], []⟩ (by decide)

/-- C3 (counterexample): in interactive mode an empty reply makes `confirm`
return `false`, not `true`: the `[y/N]` cue defaults to no. -/
theorem confirm_empty_reply_declines :
    confirm true "Run it ?" [""] = some (false, []) := by
  rfl

/-- C3 (amended): with auto-confirm (`__confirm` cleared) `confirm` returns
`true` and consumes no input; in interactive mode it consumes one line and
returns `true` exactly for the replies `y` and `Y`, so an empty reply — and
any other reply — returns `false`. -/
theorem confirm_spec (msg : String) (stdin : List String) (r : String)
    (rest : List String) :
    confirm false msg stdin = some (true, stdin) ∧
    confirm true msg (r :: rest) = some (r == "y" || r == "Y", rest) ∧
    confirm true msg ("" :: rest) = some (false, rest) := by
  exact ⟨rfl, rfl, rfl⟩

/-- C8 (confirmed): `select` exits the process with status 1 when the line
is not a Python integer literal; with a parsed number outside
`[1, len(items)]` it returns no selection; with a number in range it
returns the item at that 1-based position.  There is no retry loop: the
function returns after the single read. -/
theorem select_spec (items : List String) (line : String) :
    (pyParseInt line = none → select items line = .exited 1 ∧ (1 : Int) ≠ 0) ∧
    (∀ r : Int, pyParseInt line = some r →
      ¬ (0 < r ∧ r ≤ (items.length : Int)) → select items line = .noSelection) ∧
    (∀ r : Int, pyParseInt line = some r → 0 < r → r ≤ (items.length : Int) →
      ∀ it, items.get? (r - 1).toNat = some it →
        select items line = .selected it) := by
  refine ⟨fun h => ⟨by simp [select, h], by decide⟩, ?_, ?_⟩
  · intro r hr hout
    simp [select, hr, hout]
  · intro r hr h1 h2 it hit
    simp [List.get?_eq_getElem?, Int.pred_toNat] at hit
    simp [select, hr, if_pos (And.intro h1 h2), List.getD, hit]

/-- C8 witness: `select ["a","b","c"]` with input `"2"` returns `"b"`. -/
theorem select_spec_witness :
    select ["a", "b", "c"] "2" = .selected "b" :=
  (select_spec ["a", "b", "c"] "2").2.2 2 (by decide) (by decide) (by decide)
    "b" (by decide)

/-- C9 (confirmed): `check` evaluates its three guards in source order —
working-directory name, user, PID file — and the diagnostic is that of the
first violated condition; when all three hold it succeeds. -/
theorem check_order_spec (w : Path) (u : String) (fs : FS) :
    (basename w ≠ "seafile-server" →
      check w u fs = some (.strArg "You must be in /YourInstance/seafile-server/")) ∧
    (basename w = "seafile-server" → u ≠ "seafile" →
      check w u fs = some (.strArg "You must use seafile user, view « sudo usage »")) ∧
    (basename w = "seafile-server" → u = "seafile" →
      isFile fs (w ++ ["runtime", "seahub.pid"]) = true →
      check w u fs = some (.strArg "You must stop seafile-server service")) ∧
    (basename w = "seafile-server" → u = "seafile" →
      isFile fs (w ++ ["runtime", "seahub.pid"]) = false →
      check w u fs = none) := by
  refine ⟨fun h1 => by simp [check, h1], fun h1 h2 => by simp [check, h1, h2],
    fun h1 h2 h3 => by simp [check, h1, h2, h3],
    fun h1 h2 h3 => by simp [check, h1, h2, h3]⟩

/-- C9 witness: with the right directory name and user but the PID file
present, `check` fails with the stop-the-service diagnostic. -/
theorem check_order_spec_witness :
    check wk0 "seafile" ⟨[], [wk0 ++ ["runtime", "seahub.pid"]]⟩ =
      some (.strArg "You must stop seafile-server service") :=
  (check_order_spec wk0 "seafile" ⟨[], [wk0 ++ ["runtime", "seahub.pid"]]⟩).2.2.1
    (by decide) (by decide) (by decide)

/-- C2 (counterexample): the package's `runtime` directory contains a file
`extra`, step 1 succeeds on a fresh target, yet `extra` is not copied into
the target's `runtime`: the step is not a recursive copy of the package's
`runtime` directory. -/
theorem importRuntime_not_recursive :
    isFile fsFresh (pkg0 ++ ["runtime", "extra"]) = true ∧
    runOk (importRuntime pkg0 wk0 wk0 fsFresh) = true ∧
    (runFS (importRuntime pkg0 wk0 wk0 fsFresh)).files.contains
      (wk0 ++ ["runtime", "extra"]) = false := by
  exact ⟨rfl, rfl, rfl⟩

/-- C2 (amended): step 1 creates an empty `runtime` directory in the
current directory and copies the single package file `scripts/seahub.conf`
into the target's `runtime`; when the destination already exists it reports
`Already exist` and is a success-no-op that changes nothing, so existing
destination contents are never overwritten. -/
theorem importRuntime_spec (pkgdir wkdir cwd : Path) (fs : FS) :
    (pathExists fs (cwd ++ ["runtime"]) = true →
      importRuntime pkgdir wkdir cwd fs =
        .ok (fs, ["-> Import runtime content... ", "Already exist\n"])) ∧
    (pathExists fs (cwd ++ ["runtime"]) = false →
      isFile fs (pkgdir ++ ["scripts", "seahub.conf"]) = true →
      importRuntime pkgdir wkdir cwd fs =
        .ok ({ dirs := (cwd ++ ["runtime"]) :: fs.dirs,
               files := (wkdir ++ ["runtime", "seahub.conf"]) :: fs.files },
             ["-> Import runtime content... ", "Done\n"])) := by
  constructor
  · intro h
    simp [importRuntime, h]
  · intro h hf
    have hf2 : pkgdir ++ ["scripts", "seahub.conf"] ∈ fs.files := by
      simpa [isFile] using hf
    simp [importRuntime, isFile, h, hf2]

/-- C2 witness: step 1 on the fresh fixture creates `runtime` and copies
`seahub.conf` only. -/
theorem importRuntime_spec_witness :
    importRuntime pkg0 wk0 wk0 fsFresh =
      .ok ({ dirs := (wk0 ++ ["runtime"]) :: fsFresh.dirs,
             files := (wk0 ++ ["runtime", "seahub.conf"]) :: fsFresh.files },
           ["-> Import runtime content... ", "Done\n"]) :=
  (importRuntime_spec pkg0 wk0 wk0 fsFresh).2 (by decide) (by decide)

/-- C4 (counterexample): after a successful first `prepare_upgrade` on a
fresh target, the second run does not behave as claimed: it completes
without error (the script-bundle and app-code imports succeed), and its
cleanup pass reports `Done` — not `not exist` — for the `upgrade` target,
because the first run created that directory. -/
theorem prepare_upgrade_second_run_not_as_claimed :
    runOk firstRun = true ∧ runOk secondRun = true ∧
    runTrace secondRun = secondTrace := by
  exact ⟨rfl, rfl, rfl⟩

/-- C4 (amended): run twice from the fresh-target scenario, the second run
reports `Already exist` for the runtime import, `Done` for removing the
`upgrade` cleanup target (the first run created it), `Not exist` for
`seahub-old` (the first run had nothing to rotate), `Done` for the backup
rotation, and both imports succeed, since cleanup and rotation cleared the
destinations. -/
theorem prepare_upgrade_twice_spec :
    runTrace firstRun = freshTrace ∧
    runTrace secondRun = secondTrace ∧
    runOk secondRun = true := by
  exact ⟨rfl, rfl, rfl⟩

/-- C5 (counterexample): with an empty command line (`len(sys.argv) == 1`
and all flags at their argparse defaults) `main` exits with the
argument-missing message instead of entering the interactive flow. -/
theorem main_no_args_not_interactive :
    mainDispatch 1 "helper.py" defaultArgs =
      .exits (.strArg "Argument missing, view « helper.py --help »") ∧
    mainDispatch 1 "helper.py" defaultArgs ≠ .interactiveFlow := by
  exact ⟨rfl, by decide⟩

/-- C5 (amended): invoking the program with no arguments at all makes it
exit with the `Argument missing` diagnostic, whose `sys.exit` status is 1;
the full interactive flow runs only when the `interactive` flag is set (and
at least one argument is present). -/
theorem mainDispatch_no_args (scriptname : String) (a : Args) :
    mainDispatch 1 scriptname a =
      .exits (.strArg ("Argument missing, view « " ++ scriptname ++ " --help »")) ∧
    sysExitCode (.strArg ("Argument missing, view « " ++ scriptname ++ " --help »")) = 1 ∧
    (∀ argc : Nat, argc ≠ 1 →
      mainDispatch argc scriptname { a with interactive := true } = .interactiveFlow) := by
  refine ⟨rfl, rfl, ?_⟩
  intro argc h
  simp [mainDispatch, h]

/-- C5 witness: with one real argument and the interactive flag, the
dispatch reaches the interactive flow. -/
theorem mainDispatch_no_args_witness :
    mainDispatch 2 "helper.py" { defaultArgs with interactive := true } =
      .interactiveFlow :=
  (mainDispatch_no_args "helper.py" defaultArgs).2.2 2 (by decide)

/-- C6 (counterexample): `sys.exit('')` in the `KeyboardInterrupt` handler
exits with status 1, so the interruption status is not distinct from both
0 and 1. -/
theorem interrupt_exit_code_not_distinct :
    sysExitCode interruptExitArg = 1 ∧
    ¬ (sysExitCode interruptExitArg ≠ 0 ∧ sysExitCode interruptExitArg ≠ 1) := by
  exact ⟨rfl, by decide⟩

/-- C6 (amended): normal completion exits 0; every `check` failure exits 1;
a non-numeric selection exits 1; and an operator interrupt also exits 1
(via `sys.exit('')`), so interruption is not distinguishable from normal
failure by exit status. -/
theorem exit_codes_spec (w : Path) (u : String) (fs : FS) (e : ExitArg)
    (h : check w u fs = some e) :
    sysExitCode e = 1 ∧
    (∀ items line, pyParseInt line = none → select items line = .exited 1) ∧
    sysExitCode interruptExitArg = 1 ∧
    sysExitCode .noArg = 0 := by
  refine ⟨?_, fun items line hl => by simp [select, hl], rfl, rfl⟩
  unfold check at h
  split at h
  · injection h with h2; subst h2; rfl
  · split at h
    · injection h with h2; subst h2; rfl
    · split at h
      · injection h with h2; subst h2; rfl
      · exact Option.noConfusion h

/-- C6 witness: a wrong working directory makes `check` fail and the
resulting exit status is 1. -/
theorem exit_codes_spec_witness :
    sysExitCode (.strArg "You must be in /YourInstance/seafile-server/") = 1 ∧
    (∀ items line, pyParseInt line = none → select items line = .exited 1) ∧
    sysExitCode interruptExitArg = 1 ∧
    sysExitCode .noArg = 0 :=
  exit_codes_spec ["home", "user"] "seafile" ⟨[], []⟩
    (.strArg "You must be in /YourInstance/seafile-server/") (by decide)

/-- C7 (counterexample): declining the confirmation (reply `n`) still
leaves the process in the target's `upgrade` subdirectory: the `os.chdir`
in `run_upgrade` happens before the confirmation, so the skipped step is
not free of side effects. -/
theorem run_upgrade_decline_changes_cwd :
    run_upgrade wk0 "upgrade_1.0.sh" true ⟨wk0, ["n"], []⟩ =
      some ⟨wk0 ++ ["upgrade"], [], []⟩ ∧
    wk0 ++ ["upgrade"] ≠ wk0 := by
  exact ⟨rfl, by decide⟩

/-- C7 (amended): `run_upgrade` changes into the target's `upgrade`
subdirectory unconditionally, before asking; only on acceptance is the
named script executed; on refusal the execution — and only the execution —
is silently skipped (the directory change persists), and this is not an
error. -/
theorem run_upgrade_spec (wkdir : Path) (nm : String) (st : ProcState)
    (r : String) (rest : List String) (hst : st.stdin = r :: rest) :
    ((r == "y" || r == "Y") = false →
      run_upgrade wkdir nm true st =
        some { cwd := wkdir ++ ["upgrade"], stdin := rest,
               executed := st.executed }) ∧
    ((r == "y" || r == "Y") = true →
      run_upgrade wkdir nm true st =
        some { cwd := wkdir ++ ["upgrade"], stdin := rest,
               executed := st.executed ++ ["./" ++ nm] }) := by
  constructor <;> intro h <;> simp [run_upgrade, confirm, hst, h]

/-- C7 witness: a declined run executes nothing but ends in the `upgrade`
subdirectory. -/
theorem run_upgrade_spec_witness :
    run_upgrade wk0 "upgrade_2.0.sh" true ⟨wk0, ["x"], []⟩ =
      some { cwd := wk0 ++ ["upgrade"], stdin := [], executed := [] } :=
  (run_upgrade_spec wk0 "upgrade_2.0.sh" ⟨wk0, ["x"], []⟩ "x" [] rfl).1 (by decide)

/-- C10 (confirmed): the listing operations change the process's current
working directory to the package's locale tree, respectively its
upgrade-scripts directory, and do not restore the previous one: whenever
the previous directory differs from the listed one, the state after the
call has a different current directory. -/
theorem listings_change_cwd (pkgdir : Path) (fs : FS) (st : ProcState) :
    (get_locales_available pkgdir fs st).2.cwd = pkgdir ++ ["seahub", "locale"] ∧
    (get_upgrades_available pkgdir fs st).2.cwd = pkgdir ++ ["scripts", "upgrade"] ∧
    (st.cwd ≠ pkgdir ++ ["seahub", "locale"] →
      (get_locales_available pkgdir fs st).2.cwd ≠ st.cwd) ∧
    (st.cwd ≠ pkgdir ++ ["scripts", "upgrade"] →
      (get_upgrades_available pkgdir fs st).2.cwd ≠ st.cwd) :=
  ⟨rfl, rfl, fun h => Ne.symm h, fun h => Ne.symm h⟩

/-- C10 witness: listing locales from the target instance directory leaves
the process in the package's locale tree, not where it started. -/
theorem listings_change_cwd_witness :
    (get_locales_available pkg0 fsFresh ⟨wk0, [], []⟩).2.cwd ≠ wk0 :=
  (listings_change_cwd pkg0 fsFresh ⟨wk0, [], []⟩).2.2.1 (by decide)

end SeafileHelper
